import Mathlib

/-!
Shallow embedding of the core of the APITestFrameworkSpotify repository:
the HTTP transport (`src/core/http/client.ts`), the error taxonomy
(`src/core/http/errors/types.ts`, `src/core/http/errors/spotify-errors.ts`),
the auth handler (`src/core/auth/handler.ts`), the session token manager
(`src/lib/auth/token-manager.ts`), and the service adapter layer
(`src/services/error-handler.ts`, `src/services/base.service.ts`).

JavaScript objects with string-valued fields are embedded as association
lists (`JsObj`) whose lookup takes the last binding, so that object spread
`\x7b...a, ...b\x7d` is list append.  JavaScript numbers that can be `NaN`
(the result of `parseInt`) are embedded as `JsNum`.  Thrown values are the
inductive `Thrown`; `throw` is modelled by returning the thrown error
(`Except` for fallible operations).
-/

namespace SpotifyCore

/-- A JavaScript object with string-valued properties, as an association
list.  Lookup takes the *last* binding, so spread-merge is append. -/
abbrev JsObj := List (String × String)

/-- Property lookup: the last binding for the key wins (as in a JS object
built left to right). -/
def jsGet (o : JsObj) (k : String) : Option String :=
  match o with
  | [] => none
  | p :: rest =>
    match jsGet rest k with
    | some v => some v
    | none => if p.1 = k then some p.2 else none

/-- Object spread `\x7b...a, ...b\x7d`: properties of `b` override those of `a`. -/
def jsSpread (a b : JsObj) : JsObj := a ++ b

/-- Property assignment `o[k] = v` on an object (replaces the bindings of `k`). -/
def jsSet (o : JsObj) (k v : String) : JsObj :=
  o.map (fun p => if p.1 = k then (k, v) else p)

/-- `new : Option α` overriding `old` under JS spread semantics: the later
(`new`) value wins when present. -/
def jsOverride {α : Type} (old new : Option α) : Option α :=
  match new with
  | some x => some x
  | none => old

/-- `s || d` for an optional string, where the empty string is falsy. -/
def jsStrOr (s : Option String) (d : String) : String :=
  match s with
  | some v => if v = "" then d else v
  | none => d

/-- A JavaScript number that may be `NaN` (the codomain of `parseInt`). -/
inductive JsNum where
  | nan
  | num (v : Int)
deriving DecidableEq

/-- Leading decimal digits of a character list. -/
def leadDigits : List Char → List Char
  | [] => []
  | c :: cs => if c.isDigit then c :: leadDigits cs else []

/-- Numeric value of a digit list. -/
def digitsVal (l : List Char) : Nat :=
  l.foldl (fun acc c => acc * 10 + (c.toNat - 48)) 0

/-- Leading whitespace to be skipped by `parseInt`. -/
def skipWs : List Char → List Char
  | [] => []
  | c :: cs => if c = ' ' ∨ c = '\t' ∨ c = '\n' ∨ c = '\r' then skipWs cs else c :: cs

/-- `parseInt(s, 10)`: skip whitespace, optional sign, leading digits;
`NaN` when no digit is found. -/
def parseIntJs (s : String) : JsNum :=
  match skipWs s.data with
  | '-' :: rest =>
      let d := leadDigits rest
      if d = [] then .nan else .num (-(digitsVal d : Int))
  | '+' :: rest =>
      let d := leadDigits rest
      if d = [] then .nan else .num (digitsVal d)
  | cs =>
      let d := leadDigits cs
      if d = [] then .nan else .num (digitsVal d)

/-- Substring occurrence of `pat` starting at any position of `s`. -/
def includesFrom (pat : List Char) : List Char → Bool
  | [] => pat.isEmpty
  | c :: rest => pat.isPrefixOf (c :: rest) || includesFrom pat rest

/-- `s.includes(pat)` — substring containment on strings. -/
def strIncludes (s pat : String) : Bool :=
  includesFrom pat.data s.data

/-- ASCII lowering of one character (`String.prototype.toLowerCase` on
the ASCII range the error messages use). -/
def lowerChar (c : Char) : Char :=
  if c.isUpper then Char.ofNat (c.toNat + 32) else c

/-- `message.toLowerCase()`. -/
def jsToLower (s : String) : String :=
  ⟨s.data.map lowerChar⟩

/-! ## Error taxonomy (`src/core/http/errors/types.ts`) -/

/-- `ValidationErrors` (types.ts): `invalidTypes` entries are
`(field, expected, received)` triples. -/
structure ValidationErrors where
  missingFields : Option (List String) := none
  invalidTypes : Option (List (String × String × String)) := none
  customErrors : Option (List (String × String)) := none
deriving DecidableEq

/-- `BaseErrorContext` (types.ts): string-valued scalar fields
(resourceType, resourceId, market, timestamp, correlationId) live in
`fields`; the two nested-object members are separate. -/
structure ErrCtx where
  fields : JsObj := []
  validationErrors : Option ValidationErrors := none
  additionalData : Option JsObj := none
deriving DecidableEq

/-- Spread-merge of two contexts `\x7b...a, ...b\x7d`: `b`'s properties win. -/
def spreadCtx (a b : ErrCtx) : ErrCtx :=
  { fields := jsSpread a.fields b.fields
    validationErrors := jsOverride a.validationErrors b.validationErrors
    additionalData := jsOverride a.additionalData b.additionalData }

/-- The `error` member of a Spotify API error body. -/
structure ApiError where
  message : String
  status : Int
  code : Option String := none
deriving DecidableEq

/-- A response body possibly shaped like a Spotify error response. -/
structure SpotifyBody where
  error : Option ApiError := none
deriving DecidableEq

/-- `isSpotifyErrorResponse` (spotify-errors.ts): the body has a truthy
`error.message` and a numeric `error.status`. -/
def isSpotifyErrorResponse (b : SpotifyBody) : Bool :=
  match b.error with
  | some a => a.message ≠ ""
  | none => false

/-- `SpotifyErrorData` (types.ts). -/
structure SpotifyErrorData where
  error : Option ApiError := none
  retryAfter : Option JsNum := none
  contextData : Option ErrCtx := none
deriving DecidableEq

/-- `SpotifyHttpError` (spotify-errors.ts): message, optional statusCode,
code string (defaulting to `UNKNOWN_ERROR`), optional data. -/
structure SpotifyHttpError where
  message : String
  statusCode : Option Int := none
  code : String := "UNKNOWN_ERROR"
  data : Option SpotifyErrorData := none
deriving DecidableEq

/-- A thrown JavaScript value as seen by the catch sites:
a `SpotifyHttpError`, a plain `Error`, a raw response-shaped object,
or anything else. -/
inductive Thrown where
  | spotify (e : SpotifyHttpError)
  | jsError (message : String)
  | responseShaped (b : SpotifyBody)
  | other
deriving DecidableEq

/-- `ErrorTypeMetadata` (types.ts). -/
structure ErrorTypeMetadata where
  code : String
  isRetryable : Bool
  defaultMessage : String
  severity : String
  statusCode : Int
deriving DecidableEq

/-- `ERROR_REGISTRY` (types.ts), keyed by the error-code string. -/
def ERROR_REGISTRY (code : String) : Option ErrorTypeMetadata :=
  if code = "AUTHENTICATION_ERROR" then
    some ⟨"AUTHENTICATION_ERROR", false, "Authentication failed", "high", 401⟩
  else if code = "AUTH_ERROR" then
    some ⟨"AUTH_ERROR", false, "Authentication error occurred", "high", 401⟩
  else if code = "TOKEN_EXPIRED" then
    some ⟨"TOKEN_EXPIRED", true, "Authentication token has expired", "medium", 401⟩
  else if code = "VALIDATION_ERROR" then
    some ⟨"VALIDATION_ERROR", false, "Invalid request data provided", "high", 400⟩
  else if code = "INVALID_ID_FORMAT" then
    some ⟨"INVALID_ID_FORMAT", false, "Invalid ID format provided", "high", 400⟩
  else if code = "INVALID_METHOD" then
    some ⟨"INVALID_METHOD", false, "Invalid HTTP method used", "high", 405⟩
  else if code = "INVALID_MARKET" then
    some ⟨"INVALID_MARKET", false, "Invalid market code provided", "medium", 400⟩
  else if code = "INVALID_RESPONSE" then
    some ⟨"INVALID_RESPONSE", false, "Invalid response received", "high", 500⟩
  else if code = "NOT_FOUND" then
    some ⟨"NOT_FOUND", false, "Resource not found", "medium", 404⟩
  else if code = "RATE_LIMIT_ERROR" then
    some ⟨"RATE_LIMIT_ERROR", true, "Rate limit exceeded", "medium", 429⟩
  else if code = "RATE_LIMIT_EXCEEDED" then
    some ⟨"RATE_LIMIT_EXCEEDED", true, "Rate limit exceeded", "medium", 429⟩
  else if code = "NETWORK_ERROR" then
    some ⟨"NETWORK_ERROR", true, "Network error occurred", "high", 0⟩
  else if code = "SERVER_ERROR" then
    some ⟨"SERVER_ERROR", true, "Server error occurred", "high", 500⟩
  else if code = "UNKNOWN_ERROR" then
    some ⟨"UNKNOWN_ERROR", false, "An unknown error occurred", "high", 500⟩
  else none

/-- The `UNKNOWN_ERROR` registry entry, the fallback of `getMetadata`. -/
def unknownEntry : ErrorTypeMetadata :=
  ⟨"UNKNOWN_ERROR", false, "An unknown error occurred", "high", 500⟩

/-- `SpotifyHttpError.getMetadata`:
`ERROR_REGISTRY[this.code] || ERROR_REGISTRY[UNKNOWN]`. -/
def getMetadata (e : SpotifyHttpError) : ErrorTypeMetadata :=
  (ERROR_REGISTRY e.code).getD unknownEntry

/-- `isRetryableError` (spotify-errors.ts): `false` for anything that is
not a `SpotifyHttpError`, else the registry metadata's `isRetryable`. -/
def isRetryableError (err : Thrown) : Bool :=
  match err with
  | .spotify e => (getMetadata e).isRetryable
  | _ => false

/-- `NormalizedError` (types.ts), with the two timestamps taken from the
`now` argument standing for `new Date().toISOString()`. -/
structure NormalizedError where
  code : String
  message : String
  statusCode : Int
  context : ErrCtx
  isRetryable : Bool
  timestamp : String
deriving DecidableEq

/-- `SpotifyHttpError.toNormalizedError`: `statusCode` is
`this.statusCode || metadata.statusCode` (so `0` and `undefined` both fall
back to the registry default), context falls back to a fresh
timestamp-only context. -/
def toNormalizedError (now : String) (e : SpotifyHttpError) : NormalizedError :=
  let metadata := getMetadata e
  { code := e.code
    message := e.message
    statusCode :=
      match e.statusCode with
      | some s => if s = 0 then metadata.statusCode else s
      | none => metadata.statusCode
    context := ((e.data.bind SpotifyErrorData.contextData).getD
      { fields := [("timestamp", now)] })
    isRetryable := metadata.isRetryable
    timestamp := now }

/-! ## Error constructors and classification
(`src/core/http/errors/spotify-errors.ts`) -/

/-- The `SpotifyRateLimitError` constructor: message gains the
`Rate limited: ` marker, statusCode 429, code `RATE_LIMIT_ERROR`, and the
`retryAfter` property is written into the (spread-copied) data. -/
def mkRateLimitError (message : String) (retryAfter : Option JsNum)
    (data : Option SpotifyErrorData) : SpotifyHttpError :=
  { message := "Rate limited: " ++ message
    statusCode := some 429
    code := "RATE_LIMIT_ERROR"
    data := some { data.getD {} with retryAfter := retryAfter } }

/-- `SpotifyRateLimitError.getRetryAfter`: `this.data?.retryAfter || 0`
(`NaN`, `0` and a missing property are all falsy; a negative value is
returned as is). -/
def getRetryAfter (e : SpotifyHttpError) : Int :=
  match e.data with
  | none => 0
  | some d =>
    match d.retryAfter with
    | none => 0
    | some .nan => 0
    | some (.num v) => if v = 0 then 0 else v

/-- The `SpotifyAuthenticationError` constructor: statusCode 401, code
`AUTHENTICATION_ERROR`, contextData carrying a timestamp and
`additionalData \x7b authType \x7d`. -/
def mkAuthenticationError (message : String) (authType : String)
    (now : String) : SpotifyHttpError :=
  let ctx : ErrCtx :=
    { fields := [("timestamp", now)]
      additionalData := some [("authType", authType)] }
  { message := message
    statusCode := some 401
    code := "AUTHENTICATION_ERROR"
    data := some { contextData := some ctx } }

/-- The `SpotifyValidationError` constructor: statusCode 400, code
`VALIDATION_ERROR`, contextData carrying a timestamp and the validation
details. -/
def mkValidationError (message : String)
    (validationDetails : Option ValidationErrors) (now : String) :
    SpotifyHttpError :=
  let ctx : ErrCtx :=
    { fields := [("timestamp", now)]
      validationErrors := validationDetails }
  { message := message
    statusCode := some 400
    code := "VALIDATION_ERROR"
    data := some { contextData := some ctx } }

/-- `deriveErrorCode` (spotify-errors.ts): first matching key of the code
map found in the lowercased message, in the map's insertion order. -/
def deriveErrorCode (message : String) : String :=
  let low := jsToLower message
  if strIncludes low "not found" then "NOT_FOUND"
  else if strIncludes low "invalid id" then "INVALID_ID_FORMAT"
  else if strIncludes low "rate limit" then "RATE_LIMIT_ERROR"
  else if strIncludes low "network error" then "NETWORK_ERROR"
  else if strIncludes low "invalid market" then "INVALID_MARKET"
  else if strIncludes low "unauthorized" then "AUTHENTICATION_ERROR"
  else if strIncludes low "forbidden" then "AUTHENTICATION_ERROR"
  else "UNKNOWN_ERROR"

/-- `SpotifyHttpError.createFromError`.  For an existing
`SpotifyHttpError` with a supplied context the data is replaced by
`\x7b...error.data, contextData: \x7b...error.data?.contextData, ...context\x7d\x7d`
(the supplied context's properties override the already-set ones); without
a supplied context the error is returned untouched.  A response-shaped
object becomes a fresh error with a code derived from its message; a plain
`Error` or anything else becomes an `UNKNOWN_ERROR`. -/
def createFromError (err : Thrown) (context : Option ErrCtx) :
    SpotifyHttpError :=
  match err with
  | .spotify e =>
    match context with
    | some c =>
      let old := e.data.getD {}
      let merged : SpotifyErrorData :=
        { old with contextData := some (spreadCtx (old.contextData.getD {}) c) }
      { e with data := some merged }
    | none => e
  | .responseShaped b =>
    if isSpotifyErrorResponse b then
      { message := jsStrOr (b.error.map ApiError.message) "Unknown Spotify error"
        statusCode := b.error.map ApiError.status
        code := deriveErrorCode (jsStrOr (b.error.map ApiError.message) "")
        data := some { error := b.error, contextData := context } }
    else
      { message := "Unknown error occurred"
        statusCode := none
        code := "UNKNOWN_ERROR"
        data := some { contextData := context } }
  | .jsError msg =>
      { message := msg
        statusCode := none
        code := "UNKNOWN_ERROR"
        data := some { contextData := context } }
  | .other =>
      { message := "Unknown error occurred"
        statusCode := none
        code := "UNKNOWN_ERROR"
        data := some { contextData := context } }

/-! ## HTTP transport (`src/core/http/client.ts`) -/

/-- The parts of an Axios response that `transformError` consults. -/
structure AxiosResponseModel where
  status : Int
  headers : JsObj := []
  data : Option SpotifyBody := none
deriving DecidableEq

/-- The parts of an `AxiosError` that `transformError` consults;
`request` records whether a request object exists (a request was sent). -/
structure AxiosErrorModel where
  message : String
  response : Option AxiosResponseModel := none
  request : Bool := true
deriving DecidableEq

/-- `HttpClient.transformError`.  With a Spotify-shaped body: 429 becomes
a rate-limit error whose `retryAfter` is `parseInt` of the `retry-after`
header (defaulting to the string `"0"`); any other status keeps the
body's message/code.  Without a usable body: a sent request becomes
`NETWORK_ERROR`, an unsent one `CLIENT_ERROR`. -/
def transformError (err : AxiosErrorModel) : SpotifyHttpError :=
  match err.response with
  | some resp =>
    match resp.data with
    | some body =>
      if isSpotifyErrorResponse body then
        if resp.status = 429 then
          mkRateLimitError
            (jsStrOr (body.error.map ApiError.message) "Rate limit exceeded")
            (some (parseIntJs (jsStrOr (jsGet resp.headers "retry-after") "0")))
            none
        else
          { message := jsStrOr (body.error.map ApiError.message) err.message
            statusCode := some resp.status
            code := ((body.error.bind ApiError.code).getD "UNKNOWN_ERROR")
            data := some { error := body.error } }
      else if err.request then
        { message := "Network error occurred", statusCode := none
          code := "NETWORK_ERROR", data := none }
      else
        { message := "Request failed", statusCode := none
          code := "CLIENT_ERROR", data := none }
    | none =>
      if err.request then
        { message := "Network error occurred", statusCode := none
          code := "NETWORK_ERROR", data := none }
      else
        { message := "Request failed", statusCode := none
          code := "CLIENT_ERROR", data := none }
  | none =>
    if err.request then
      { message := "Network error occurred", statusCode := none
        code := "NETWORK_ERROR", data := none }
    else
      { message := "Request failed", statusCode := none
        code := "CLIENT_ERROR", data := none }

/-- `HttpClient.shouldRetryRequest`. -/
def shouldRetryRequest (retries : Nat) (responseStatus : Option Int)
    (retryCount : Nat) : Bool :=
  if retries ≤ retryCount then false
  else
    match responseStatus with
    | none => true
    | some s => 500 ≤ s ∨ s = 429

/-- `HttpClient.calculateBackoff`: `min(base * 2^k + random() * base, 10000)`
over the rationals, with `r` standing for the `Math.random()` draw. -/
def calculateBackoff (retryDelay : ℚ) (retryCount : ℕ) (r : ℚ) : ℚ :=
  min (retryDelay * 2 ^ retryCount + r * retryDelay) 10000

/-- `HttpClient.sanitizeHeaders`: copy the header object and overwrite the
value of each of the three (lower-case) sensitive keys that is present. -/
def sanitizeHeaders (headers : JsObj) : JsObj :=
  ["authorization", "cookie", "x-api-key"].foldl
    (fun h key => if jsGet h key ≠ none then jsSet h key "[REDACTED]" else h)
    headers

/-! ## Auth handler (`src/core/auth/handler.ts`) -/

/-- `AuthToken` (auth/types.ts): access token and absolute expiry. -/
structure AuthToken where
  accessToken : String
  expiresAt : Int
deriving DecidableEq

/-- `AuthHandler.isTokenExpired` on a held token:
`Date.now() + 60_000 >= expiresAt`. -/
def isTokenExpiredAt (t : AuthToken) (now : Int) : Bool :=
  t.expiresAt ≤ now + 60 * 1000

/-- Whether `getValidToken` decides to refresh:
`!this.token || this.isTokenExpired()`. -/
def needsRefresh (token : Option AuthToken) (now : Int) : Bool :=
  match token with
  | none => true
  | some t => isTokenExpiredAt t now

/-- The outcome of the `axios.post` to the token endpoint, as seen by
`fetchNewToken`: a resolved 2xx with a body, or a rejection carrying the
optional response status/statusText. -/
inductive TokenFetchOutcome where
  | success (accessToken : Option String) (expiresIn : Int)
  | failure (status : Option Int) (statusText : Option String)
deriving DecidableEq

/-- Render an optional value the way a JS template literal renders
`undefined`. -/
def tmplInt (v : Option Int) : String :=
  match v with
  | some n => toString n
  | none => "undefined"

/-- Render an optional string the way a JS template literal renders
`undefined`. -/
def tmplStr (v : Option String) : String :=
  match v with
  | some s => s
  | none => "undefined"

/-- `AuthHandler.fetchNewToken`.  On a resolved response with a truthy
`access_token` it returns a fresh token expiring `expires_in` seconds from
now.  A missing/empty `access_token` throws `No access token in response`
inside the `try`, and every failure is caught and re-thrown as a *plain*
`Error` with message `Authentication failed: <status> <statusText>`
(both `undefined` for a non-Axios failure). -/
def fetchNewToken (now : Int) (outcome : TokenFetchOutcome) :
    Except Thrown AuthToken :=
  match outcome with
  | .success accessToken expiresIn =>
    match accessToken with
    | some tok =>
      if tok = "" then
        .error (.jsError "Authentication failed: undefined undefined")
      else
        .ok { accessToken := tok, expiresAt := now + expiresIn * 1000 }
    | none => .error (.jsError "Authentication failed: undefined undefined")
  | .failure status statusText =>
      .error (.jsError
        ("Authentication failed: " ++ tmplInt status ++ " " ++ tmplStr statusText))

/-- `AuthHandler.getValidToken` as a state transformer on the cached
token: refresh when the token is missing or expired; on a failed refresh
the exception propagates and the assignment `this.token = ...` never
runs, so the cached token is returned unchanged in the state. -/
def getValidToken (token : Option AuthToken) (now : Int)
    (outcome : TokenFetchOutcome) :
    Except Thrown AuthToken × Option AuthToken :=
  if needsRefresh token now then
    match fetchNewToken now outcome with
    | .ok t => (.ok t, some t)
    | .error e => (.error e, token)
  else
    match token with
    | some t => (.ok t, some t)
    | none => (.error .other, none)

/-- `AuthHandler.getAuthHeader`: the header object the system attaches to
outbound requests (note the capital `Authorization`). -/
def getAuthHeader (accessToken : String) : JsObj :=
  [("Authorization", "Bearer " ++ accessToken)]

/-! ## Concurrent `getValidToken` (cooperative interleaving)

JavaScript runs each `async` function synchronously up to its first
`await`, so a call of `AuthHandler.getValidToken` is two atomic phases:
the check (`!this.token || this.isTokenExpired()`) together with the start
of `fetchNewToken`, and the resumption that assigns `this.token`.  A
schedule is a list of caller indices; `step i` runs caller `i`'s next
phase. -/

inductive AhPc where
  | ready
  | awaitingFetch
  | done (t : AuthToken)
deriving DecidableEq

structure AhState where
  token : Option AuthToken
  networkCalls : Nat
  pcs : List AhPc
deriving DecidableEq

/-- One phase of one caller of `AuthHandler.getValidToken`. -/
def ahStep (now : Int) (newTok : AuthToken) (s : AhState) (i : Nat) :
    AhState :=
  match s.pcs.get? i with
  | some .ready =>
    if needsRefresh s.token now then
      { s with networkCalls := s.networkCalls + 1
               pcs := s.pcs.set i .awaitingFetch }
    else
      match s.token with
      | some t => { s with pcs := s.pcs.set i (.done t) }
      | none => s
  | some .awaitingFetch =>
      { s with token := some newTok, pcs := s.pcs.set i (.done newTok) }
  | _ => s

/-- Run a schedule of caller phases. -/
def ahRun (now : Int) (newTok : AuthToken) (sched : List Nat)
    (s : AhState) : AhState :=
  sched.foldl (ahStep now newTok) s

/-! ## Session token manager (`src/lib/auth/token-manager.ts`)

`TokenManager.refreshToken` checks `this.refreshPromise` synchronously:
if a refresh is already in flight the caller returns that promise without
any network call; otherwise it stores a fresh in-flight promise and issues
the one network call.  All of that happens before the first `await`, so
each caller's entry is one atomic step, and the entries of concurrent
callers are interchangeable. -/

structure TmState where
  refreshInFlight : Bool
  networkCalls : Nat
  sharedWaiters : Nat
deriving DecidableEq

/-- The synchronous entry of one `refreshToken` caller. -/
def tmEnter (s : TmState) : TmState :=
  if s.refreshInFlight then
    { s with sharedWaiters := s.sharedWaiters + 1 }
  else
    { refreshInFlight := true
      networkCalls := s.networkCalls + 1
      sharedWaiters := s.sharedWaiters }

/-- `n` successive atomic entries. -/
def tmEnters : Nat → TmState → TmState
  | 0, s => s
  | n + 1, s => tmEnters n (tmEnter s)

/-- The manager before any refresh. -/
def tmInit : TmState := { refreshInFlight := false, networkCalls := 0, sharedWaiters := 0 }

/-! ## Service adapter layer (`src/services/error-handler.ts`,
`src/services/base.service.ts`)

The `ServiceErrorContext` passed by `BaseService` is an object with
string-valued fields (`resourceType`, optional `resourceId`/`market`, and
`timestamp`), so it is embedded as a `JsObj`. -/

/-- `handleNotFoundError`. -/
def handleNotFoundError (now : String) (ctx : JsObj) : SpotifyHttpError :=
  let msg := tmplStr (jsGet ctx "resourceType") ++ " not found: " ++
    tmplStr (jsGet ctx "resourceId")
  let c : ErrCtx := { fields := jsSpread ctx [("timestamp", now)] }
  { message := msg
    statusCode := some 404
    code := "NOT_FOUND"
    data := some { contextData := some c } }

/-- `handleRateLimitError`: rebuilds a `SpotifyRateLimitError` from the
original's message and `retryAfter`, attaching the service context. -/
def handleRateLimitError (now : String) (originalError : SpotifyHttpError)
    (ctx : JsObj) : SpotifyHttpError :=
  let c : ErrCtx := { fields := jsSpread ctx [("timestamp", now)] }
  mkRateLimitError originalError.message
    (originalError.data.bind SpotifyErrorData.retryAfter)
    (some { error := originalError.data.bind SpotifyErrorData.error
            contextData := some c })

/-- `handleBadRequestError`: message-sniffing on the lowercased upstream
message, always producing a `SpotifyValidationError`. -/
def handleBadRequestError (now : String) (errorMessage : String)
    (ctx : JsObj) : SpotifyHttpError :=
  let marketDetails : ValidationErrors :=
    { invalidTypes :=
        some [("market", "ISO 3166-1 alpha-2 code", (jsGet ctx "market").getD "unknown")] }
  let idDetails : ValidationErrors :=
    { invalidTypes :=
        some [("id", "Spotify ID format", (jsGet ctx "resourceId").getD "unknown")] }
  let requestDetails : ValidationErrors :=
    { customErrors := some [("request", errorMessage)] }
  if strIncludes errorMessage "market" then
    mkValidationError "Invalid market code provided" (some marketDetails) now
  else if strIncludes errorMessage "invalid id" ∨ strIncludes errorMessage "base62" then
    mkValidationError
      ("Invalid " ++ tmplStr (jsGet ctx "resourceType") ++ " ID format")
      (some idDetails) now
  else
    mkValidationError
      ("Invalid " ++ tmplStr (jsGet ctx "resourceType") ++ " request")
      (some requestDetails) now

/-- `handleGenericError`: keeps the original's statusCode and code,
wraps the message, attaches the service context. -/
def handleGenericError (now : String) (originalError : SpotifyHttpError)
    (ctx : JsObj) : SpotifyHttpError :=
  let c : ErrCtx := { fields := jsSpread ctx [("timestamp", now)] }
  { message := "Failed to process " ++ tmplStr (jsGet ctx "resourceType") ++
      " request: " ++ originalError.message
    statusCode := originalError.statusCode
    code := originalError.code
    data := some { error := originalError.data.bind SpotifyErrorData.error
                   contextData := some c } }

/-- `ServiceErrorHandler.handleError` — declared `: never`, i.e. it always
throws; the returned value is the error it throws.  It coerces the caught
value to a `SpotifyHttpError` and dispatches on its `statusCode`. -/
def handleError (now : String) (error : Thrown) (ctx : JsObj) :
    SpotifyHttpError :=
  let spotifyError :=
    match error with
    | .spotify e => e
    | e => createFromError e none
  let errorMessage :=
    ((spotifyError.data.bind SpotifyErrorData.error).map
      (fun a => jsToLower a.message)).getD ""
  match spotifyError.statusCode with
  | some s =>
    if s = 404 then handleNotFoundError now ctx
    else if s = 429 then handleRateLimitError now spotifyError ctx
    else if s = 400 then handleBadRequestError now errorMessage ctx
    else if s = 401 then
      mkAuthenticationError "Authentication failed. Please check your credentials." "token" now
    else if s = 403 then
      mkAuthenticationError "Insufficient permissions for this operation" "client" now
    else handleGenericError now spotifyError ctx
  | none => handleGenericError now spotifyError ctx

/-- The `catch` clause of `BaseService.request`: every thrown value is
funnelled into `ServiceErrorHandler.handleError` with the context
`\x7b resourceType, timestamp \x7d`. -/
def baseServiceCatch (now : String) (resourceType : String) (err : Thrown) :
    SpotifyHttpError :=
  handleError now err [("resourceType", resourceType), ("timestamp", now)]

/-- Whether a response field is present and truthy
(`field in response && response[field]`, values being strings here). -/
def truthyField (response : JsObj) (field : String) : Bool :=
  match jsGet response field with
  | some v => v ≠ ""
  | none => false

/-- `ServiceErrorHandler.validateResponse`: filter out the required
fields that are absent or falsy; if any, throw a `SpotifyValidationError`
listing them; otherwise return the response unchanged. -/
def validateResponse (response : JsObj) (requiredFields : List String)
    (ctx : JsObj) (now : String) : Except SpotifyHttpError JsObj :=
  let missingFields := requiredFields.filter (fun f => !truthyField response f)
  if 0 < missingFields.length then
    .error (mkValidationError
      ("Invalid " ++ tmplStr (jsGet ctx "resourceType") ++
        " response: missing required fields")
      (some { missingFields := some missingFields })
      now)
  else
    .ok response

/-! ## Observation helpers used by the theorems -/

/-- The `code` of the error of a fallible computation, if it failed. -/
def exceptCode {α : Type} (r : Except SpotifyHttpError α) : Option String :=
  match r with
  | .error e => some e.code
  | .ok _ => none

/-- The `statusCode` of the error of a fallible computation. -/
def exceptStatus {α : Type} (r : Except SpotifyHttpError α) : Option (Option Int) :=
  match r with
  | .error e => some e.statusCode
  | .ok _ => none

/-- A scalar field of an error's `contextData`. -/
def ctxField (e : SpotifyHttpError) (k : String) : Option String :=
  (e.data.bind SpotifyErrorData.contextData).bind (fun c => jsGet c.fields k)

/-- Whether a fallible token operation failed with a `SpotifyHttpError`
(the repository's `DomainError`) as opposed to a plain `Error`. -/
def failedWithDomainError (r : Except Thrown AuthToken) : Bool :=
  match r with
  | .error (.spotify _) => true
  | _ => false

/-- `transformError` applied to a raw 429 failure with the given body and
headers, the shape `HttpClient` sees when the API rate-limits a request. -/
def classify429 (m : String) (hdrs : JsObj) (body : SpotifyBody) :
    SpotifyHttpError :=
  transformError
    { message := m
      response := some { status := 429, headers := hdrs, data := some body }
      request := true }

/-! ## Shared lemmas -/

/-- Lookup across a spread: the later object's binding wins. -/
theorem jsGet_append (a b : JsObj) (k : String) :
    jsGet (a ++ b) k =
      match jsGet b k with
      | some v => some v
      | none => jsGet a k := by
  induction a with
  | nil =>
    simp only [List.nil_append]
    cases jsGet b k <;> rfl
  | cons p t ih =>
    have hstep : jsGet ((p :: t) ++ b) k =
        match jsGet (t ++ b) k with
        | some v => some v
        | none => if p.1 = k then some p.2 else none := rfl
    have hcons : jsGet (p :: t) k =
        match jsGet t k with
        | some v => some v
        | none => if p.1 = k then some p.2 else none := rfl
    rw [hstep, ih, hcons]
    cases jsGet b k <;> cases jsGet t k <;> rfl

/-- Once a refresh is in flight, further synchronous entries of
`TokenManager.refreshToken` issue no network call and leave the in-flight
marker set. -/
theorem tmEnters_inFlight (m : Nat) (s : TmState)
    (hs : s.refreshInFlight = true) :
    (tmEnters m s).networkCalls = s.networkCalls ∧
    (tmEnters m s).refreshInFlight = true := by
  induction m generalizing s with
  | zero => exact ⟨rfl, hs⟩
  | succ k ih =>
    have hstep : tmEnter s = { s with sharedWaiters := s.sharedWaiters + 1 } := by
      simp [tmEnter, hs]
    simp only [tmEnters, hstep]
    exact ih { s with sharedWaiters := s.sharedWaiters + 1 } hs

/-! ## Claim theorems -/

/-- C10: for every `SpotifyHttpError`, including one whose code string
has no entry in the error registry, `getMetadata()` returns a defined
metadata record, falling back to the `UNKNOWN` registry entry, so the
lookup is total; and `toNormalizedError` always yields a numeric
`statusCode` — the error's own `statusCode` when set and non-zero,
otherwise the registry default for its (possibly fallback) metadata. -/
theorem c10_metadata_total_and_status_fallback (e : SpotifyHttpError)
    (now : String) :
    (ERROR_REGISTRY e.code = none → getMetadata e = unknownEntry) ∧
    (∀ m, ERROR_REGISTRY e.code = some m → getMetadata e = m) ∧
    (toNormalizedError now e).statusCode =
      (match e.statusCode with
       | some s => if s = 0 then (getMetadata e).statusCode else s
       | none => (getMetadata e).statusCode) := by
  refine ⟨?_, ?_, ?_⟩
  · intro h
    simp [getMetadata, h]
  · intro m h
    simp [getMetadata, h]
  · rfl

/-- C10 witness: an error whose code `BOGUS_CODE` has no registry entry
and whose own `statusCode` is `0` normalizes to the `UNKNOWN` entry's
default 500. -/
theorem c10_witness :
    getMetadata { message := "boom", statusCode := some 0, code := "BOGUS_CODE", data := none } = unknownEntry ∧
    (toNormalizedError "t0" { message := "boom", statusCode := some 0, code := "BOGUS_CODE", data := none }).statusCode = 500 := by
  have h := c10_metadata_total_and_status_fallback
    { message := "boom", statusCode := some 0, code := "BOGUS_CODE", data := none } "t0"
  refine ⟨h.1 (by decide), ?_⟩
  rw [h.2.2]
  simp [h.1 (by decide), unknownEntry]

/-- C4 counterexample: the claim says every error with
`statusCode ≥ 500` is retryable, but `isRetryableError` consults only the
registry flag of the error's code — a `SpotifyHttpError` with code
`UNKNOWN_ERROR` and `statusCode` 500 is reported not retryable. -/
theorem c4_counterexample :
    (500 : Int) ≤ 500 ∧
    isRetryableError (.spotify { message := "upstream exploded", statusCode := some 500, code := "UNKNOWN_ERROR", data := none }) = false := by
  exact ⟨by norm_num, rfl⟩

/-- C4 amended: `isRetryableError` is the registry metadata's
`isRetryable` flag — true exactly when the error is a `SpotifyHttpError`
whose code is one of `TOKEN_EXPIRED`, `RATE_LIMIT_ERROR`,
`RATE_LIMIT_EXCEEDED`, `NETWORK_ERROR`, `SERVER_ERROR`; `statusCode` is
never consulted, and every non-`SpotifyHttpError` value is not
retryable. -/
theorem c4_amended_registry_flag_only (e : SpotifyHttpError) (m : String)
    (b : SpotifyBody) :
    (isRetryableError (.spotify e) =
      (e.code == "TOKEN_EXPIRED" || e.code == "RATE_LIMIT_ERROR" ||
       e.code == "RATE_LIMIT_EXCEEDED" || e.code == "NETWORK_ERROR" ||
       e.code == "SERVER_ERROR")) ∧
    isRetryableError (.jsError m) = false ∧
    isRetryableError (.responseShaped b) = false ∧
    isRetryableError .other = false := by
  refine ⟨?_, rfl, rfl, rfl⟩
  have key : ∀ c : String,
      ((ERROR_REGISTRY c).getD unknownEntry).isRetryable =
      (c == "TOKEN_EXPIRED" || c == "RATE_LIMIT_ERROR" ||
       c == "RATE_LIMIT_EXCEEDED" || c == "NETWORK_ERROR" ||
       c == "SERVER_ERROR") := by
    intro c
    simp only [ERROR_REGISTRY]
    by_cases h1 : c = "AUTHENTICATION_ERROR"
    · subst h1; decide
    rw [if_neg h1]
    by_cases h2 : c = "AUTH_ERROR"
    · subst h2; decide
    rw [if_neg h2]
    by_cases h3 : c = "TOKEN_EXPIRED"
    · subst h3; decide
    rw [if_neg h3]
    by_cases h4 : c = "VALIDATION_ERROR"
    · subst h4; decide
    rw [if_neg h4]
    by_cases h5 : c = "INVALID_ID_FORMAT"
    · subst h5; decide
    rw [if_neg h5]
    by_cases h6 : c = "INVALID_METHOD"
    · subst h6; decide
    rw [if_neg h6]
    by_cases h7 : c = "INVALID_MARKET"
    · subst h7; decide
    rw [if_neg h7]
    by_cases h8 : c = "INVALID_RESPONSE"
    · subst h8; decide
    rw [if_neg h8]
    by_cases h9 : c = "NOT_FOUND"
    · subst h9; decide
    rw [if_neg h9]
    by_cases h10 : c = "RATE_LIMIT_ERROR"
    · subst h10; decide
    rw [if_neg h10]
    by_cases h11 : c = "RATE_LIMIT_EXCEEDED"
    · subst h11; decide
    rw [if_neg h11]
    by_cases h12 : c = "NETWORK_ERROR"
    · subst h12; decide
    rw [if_neg h12]
    by_cases h13 : c = "SERVER_ERROR"
    · subst h13; decide
    rw [if_neg h13]
    by_cases h14 : c = "UNKNOWN_ERROR"
    · subst h14; decide
    rw [if_neg h14]
    simp [unknownEntry, h3, h10, h11, h12, h13]
  simpa [isRetryableError, getMetadata] using key e.code

/-- C9 (code bug): the header sanitizers redact only the exact lower-case
keys `authorization`, `cookie`, `x-api-key`, but the system itself
attaches the header under the key `Authorization`
(`AuthHandler.getAuthHeader`), which therefore reaches the logger
unredacted — two header maps differing only in that bearer value produce
different sanitized outputs — while the same header under the lower-case
key is redacted. -/
theorem c9_authorization_header_not_redacted :
    jsGet (sanitizeHeaders (getAuthHeader "secret-token-123")) "Authorization" =
      some "Bearer secret-token-123" ∧
    sanitizeHeaders [("Authorization", "Bearer aaa")] ≠
      sanitizeHeaders [("Authorization", "Bearer bbb")] ∧
    jsGet (sanitizeHeaders [("authorization", "Bearer aaa")]) "authorization" =
      some "[REDACTED]" := by
  exact ⟨rfl, by decide, rfl⟩

/-- C2 counterexample: a 429 response whose `retry-after` header is `"2"`
(seconds).  The claim demands an attached value of
`max(0, 2 * 1000) = 2000` milliseconds, but the code attaches the parsed
seconds value unconverted: `getRetryAfter` returns `2`. -/
theorem c2_counterexample :
    getRetryAfter (classify429 "request failed"
      [("retry-after", "2")]
      { error := some { message := "rate limit hit", status := 429, code := none } }) = 2 ∧
    (2 : Int) ≠ max 0 (2 * 1000) := by
  exact ⟨rfl, by decide⟩

/-- C2 amended: for every raw 429 failure with a Spotify-shaped error
body, classification produces a rate-limit error with code
`RATE_LIMIT_ERROR` and statusCode 429, whose attached `retryAfter` is the
`retry-after` header parsed by `parseInt` as a value in seconds (no
millisecond conversion and no clamping): `getRetryAfter()` returns the
parsed value as is — possibly negative — and `0` when the header is
absent, empty, zero, or unparsable. -/
theorem c2_amended_retry_after_seconds (m : String) (hdrs : JsObj)
    (body : SpotifyBody) (hbody : isSpotifyErrorResponse body = true) :
    (classify429 m hdrs body).code = "RATE_LIMIT_ERROR" ∧
    (classify429 m hdrs body).statusCode = some 429 ∧
    ((classify429 m hdrs body).data.bind SpotifyErrorData.retryAfter) =
      some (parseIntJs (jsStrOr (jsGet hdrs "retry-after") "0")) ∧
    getRetryAfter (classify429 m hdrs body) =
      (match parseIntJs (jsStrOr (jsGet hdrs "retry-after") "0") with
       | .nan => 0
       | .num v => if v = 0 then 0 else v) := by
  simp only [classify429, transformError, hbody, if_true]
  refine ⟨rfl, rfl, rfl, ?_⟩
  simp only [getRetryAfter, mkRateLimitError]
  cases parseIntJs (jsStrOr (jsGet hdrs "retry-after") "0") <;> rfl

/-- C2 witness: the amended characterization evaluated on a concrete 429
failure with header `retry-after: 7` — the attached value is `7`. -/
theorem c2_witness :
    (classify429 "x" [("retry-after", "7")] { error := some { message := "rate limit hit", status := 429, code := none } }).code = "RATE_LIMIT_ERROR" ∧
    getRetryAfter (classify429 "x" [("retry-after", "7")] { error := some { message := "rate limit hit", status := 429, code := none } }) = 7 := by
  have h := c2_amended_retry_after_seconds "x" [("retry-after", "7")]
    { error := some { message := "rate limit hit", status := 429, code := none } }
    (by decide)
  exact ⟨h.1, h.2.2.2⟩

/-- C7 counterexample: the claim's own example
`validateRequiredFields(\x7bid:"x"\x7d, ["id","name"], "track")` does raise
because `name` is missing, but the raised error is a
`SpotifyValidationError` whose code is `VALIDATION_ERROR`
(statusCode 400), not `INVALID_RESPONSE`. -/
theorem c7_counterexample :
    exceptCode (validateResponse [("id", "x")] ["id", "name"]
      [("resourceType", "track")] "t0") = some "VALIDATION_ERROR" ∧
    exceptStatus (validateResponse [("id", "x")] ["id", "name"]
      [("resourceType", "track")] "t0") = some (some 400) ∧
    some "VALIDATION_ERROR" ≠ some "INVALID_RESPONSE" := by
  exact ⟨rfl, rfl, by decide⟩

/-- C7 amended: `validateResponse` raises a DomainError coded
`VALIDATION_ERROR` with statusCode 400 when at least one listed field is
absent or falsy in the response, and returns the input object unchanged
when every listed field is present and truthy. -/
theorem c7_amended_validation_code (response : JsObj)
    (fields : List String) (ctx : JsObj) (now : String) :
    (fields.all (truthyField response) = true →
      validateResponse response fields ctx now = .ok response) ∧
    (fields.all (truthyField response) = false →
      exceptCode (validateResponse response fields ctx now) =
        some "VALIDATION_ERROR" ∧
      exceptStatus (validateResponse response fields ctx now) =
        some (some 400)) := by
  constructor
  · intro h
    have hfil : fields.filter (fun f => !truthyField response f) = [] := by
      rw [List.filter_eq_nil_iff]
      intro a ha
      have := List.all_eq_true.mp h a ha
      simp [this]
    simp [validateResponse, hfil]
  · intro h
    obtain ⟨f, hf, hnt⟩ := by
      simpa using List.all_eq_false.mp h
    have hmem : f ∈ fields.filter (fun f => !truthyField response f) := by
      simp [List.mem_filter, hf, hnt]
    have hlen : 0 < (fields.filter (fun f => !truthyField response f)).length :=
      List.length_pos_of_mem hmem
    simp [validateResponse, hlen, exceptCode, exceptStatus, mkValidationError]

/-- C7 witness: the amended theorem applied to a complete response (all
fields truthy: returned unchanged) and to a response with a missing
field (raises `VALIDATION_ERROR`). -/
theorem c7_witness :
    validateResponse [("id", "x"), ("name", "y")] ["id", "name"]
      [("resourceType", "track")] "t0" = .ok [("id", "x"), ("name", "y")] ∧
    exceptCode (validateResponse [("id", "x")] ["id", "name"]
      [("resourceType", "playlist")] "t0") = some "VALIDATION_ERROR" := by
  refine ⟨(c7_amended_validation_code [("id", "x"), ("name", "y")]
    ["id", "name"] [("resourceType", "track")] "t0").1 (by decide), ?_⟩
  exact ((c7_amended_validation_code [("id", "x")] ["id", "name"]
    [("resourceType", "playlist")] "t0").2 (by decide)).1

/-- C5 counterexample: classifying an existing DomainError whose context
already has `resourceType = "track"` with a supplied context setting
`resourceType = "album"` *overwrites* the already-set field (the supplied
context is spread last), contradicting the claim that set fields are
preserved. -/
theorem c5_counterexample :
    ctxField { message := "m", statusCode := some 404, code := "NOT_FOUND", data := some { error := none, retryAfter := none, contextData := some { fields := [("resourceType", "track")] } } } "resourceType" = some "track" ∧
    ctxField (createFromError
      (.spotify { message := "m", statusCode := some 404, code := "NOT_FOUND", data := some { error := none, retryAfter := none, contextData := some { fields := [("resourceType", "track")] } } })
      (some { fields := [("resourceType", "album")] })) "resourceType" = some "album" ∧
    some "album" ≠ some "track" := by
  exact ⟨rfl, rfl, by decide⟩

/-- C5 amended: classifying an existing DomainError merges the supplied
context into the existing one with the *supplied* fields taking
precedence (already-set fields are overwritten on conflict), leaves code,
message and statusCode unchanged, and is the identity when no context is
supplied. -/
theorem c5_amended_supplied_context_wins (e : SpotifyHttpError)
    (c : ErrCtx) (k : String) :
    createFromError (.spotify e) none = e ∧
    (createFromError (.spotify e) (some c)).code = e.code ∧
    (createFromError (.spotify e) (some c)).message = e.message ∧
    (createFromError (.spotify e) (some c)).statusCode = e.statusCode ∧
    ctxField (createFromError (.spotify e) (some c)) k =
      (match jsGet c.fields k with
       | some v => some v
       | none => ctxField e k) := by
  refine ⟨rfl, rfl, rfl, rfl, ?_⟩
  rcases e with ⟨msg, st, code, data⟩
  rcases data with _ | d
  · simp only [createFromError, ctxField, spreadCtx, jsSpread, Option.getD]
    simp [jsGet_append, jsGet]
    cases jsGet c.fields k <;> rfl
  · rcases d with ⟨derr, dra, dctx⟩
    rcases dctx with _ | dc
    · simp only [createFromError, ctxField, spreadCtx, jsSpread, Option.getD]
      simp [jsGet_append, jsGet]
      cases jsGet c.fields k <;> rfl
    · simp only [createFromError, ctxField, spreadCtx, jsSpread, Option.getD]
      simp [jsGet_append]

/-- C3 counterexample: a refresh that fails with a 500 from the token
endpoint makes `getValidToken` raise a *plain* `Error` (message
`Authentication failed: 500 Server Error`), not a DomainError coded
AUTHENTICATION — `failedWithDomainError` is `false` on the outcome.  (The
cached token, here absent, is indeed left unchanged.) -/
theorem c3_counterexample :
    failedWithDomainError
      (getValidToken none 0 (.failure (some 500) (some "Server Error"))).1 = false ∧
    (getValidToken none 0 (.failure (some 500) (some "Server Error"))).1 =
      .error (.jsError "Authentication failed: 500 Server Error") ∧
    (getValidToken none 0 (.failure (some 500) (some "Server Error"))).2 = none := by
  exact ⟨rfl, rfl, rfl⟩

/-- C3 amended: when the cached token is missing or expired and the
refresh network call fails, `getValidToken` raises a plain `Error` with
message `Authentication failed: <status> <statusText>` (not a
DomainError coded AUTHENTICATION), and the previously cached token is
left exactly as it was. -/
theorem c3_amended_plain_error_token_preserved (token : Option AuthToken)
    (now : Int) (status : Option Int) (statusText : Option String)
    (h : needsRefresh token now = true) :
    getValidToken token now (.failure status statusText) =
      (.error (.jsError ("Authentication failed: " ++ tmplInt status ++ " " ++
        tmplStr statusText)), token) := by
  simp [getValidToken, h, fetchNewToken]

/-- C3 witness: an expired cached token survives a failed refresh
unchanged, and the raised error is the plain
`Authentication failed: 503 Bad Gateway`. -/
theorem c3_witness :
    getValidToken (some { accessToken := "stale", expiresAt := 100 }) 1000000
      (.failure (some 503) (some "Bad Gateway")) =
      (.error (.jsError "Authentication failed: 503 Bad Gateway"),
       some { accessToken := "stale", expiresAt := 100 }) := by
  exact c3_amended_plain_error_token_preserved
    (some { accessToken := "stale", expiresAt := 100 }) 1000000
    (some 503) (some "Bad Gateway") (by decide)

/-- C8 counterexample: with the default `baseDelay = 1000` and attempt
`k = 4` (and a legitimate jitter draw of 0), the computed delay is the
hard cap `10000`, strictly below the claimed lower bound
`baseDelay * 2^k = 16000`. -/
theorem c8_counterexample :
    (0 : ℚ) ≤ 0 ∧ (0 : ℚ) < 1 ∧
    calculateBackoff 1000 4 0 < 1000 * 2 ^ 4 := by
  refine ⟨le_refl 0, by norm_num, ?_⟩
  norm_num [calculateBackoff]

/-- C8 amended: the cap is the hard-coded constant 10000 ms (not a
configured value).  For jitter `r ∈ [0, 1)` and `baseDelay ≥ 0` the delay
satisfies `min(baseDelay * 2^k, 10000) ≤ delay ≤ baseDelay * 2^k +
baseDelay` and `delay ≤ 10000`; the claimed unconditional lower bound
`baseDelay * 2^k ≤ delay` holds only when `baseDelay * 2^k` itself is
within the cap. -/
theorem c8_amended_backoff_bounds (base : ℚ) (k : ℕ) (r : ℚ)
    (hbase : 0 ≤ base) (h0 : 0 ≤ r) (h1 : r < 1) :
    min (base * 2 ^ k) 10000 ≤ calculateBackoff base k r ∧
    calculateBackoff base k r ≤ base * 2 ^ k + base ∧
    calculateBackoff base k r ≤ 10000 := by
  unfold calculateBackoff
  have hjit : 0 ≤ r * base := mul_nonneg h0 hbase
  have hlow : base * 2 ^ k ≤ base * 2 ^ k + r * base := by linarith
  have hup : base * 2 ^ k + r * base ≤ base * 2 ^ k + base := by nlinarith
  exact ⟨min_le_min hlow le_rfl,
    le_trans (min_le_left _ _) hup,
    min_le_right _ _⟩

/-- C8 witness: the bounds at `baseDelay = 1000`, attempt 2, jitter
draw 1/2. -/
theorem c8_witness :
    (0 : ℚ) ≤ 1000 ∧ (0 : ℚ) ≤ 1 / 2 ∧ (1 / 2 : ℚ) < 1 ∧
    (min ((1000 : ℚ) * 2 ^ 2) 10000 ≤ calculateBackoff 1000 2 (1 / 2) ∧
     calculateBackoff 1000 2 (1 / 2) ≤ 1000 * 2 ^ 2 + 1000 ∧
     calculateBackoff 1000 2 (1 / 2) ≤ 10000) := by
  exact ⟨by norm_num, by norm_num, by norm_num,
    c8_amended_backoff_bounds 1000 2 (1 / 2) (by norm_num) (by norm_num) (by norm_num)⟩

/-- C1 counterexample: two callers of `AuthHandler.getValidToken` that
both run their synchronous check before either refresh resolves (the JS
interleaving `[check 0, check 1, resolve 0, resolve 1]`) issue **2**
refresh network calls — `AuthHandler.getValidToken` stores no in-flight
operation, so the claimed single-refresh guarantee fails there. -/
theorem c1_counterexample :
    (ahRun 0 { accessToken := "fresh", expiresAt := 7200000 } [0, 1, 0, 1]
      { token := none, networkCalls := 0, pcs := [.ready, .ready] }).networkCalls = 2 ∧
    (2 : ℕ) ≠ 1 := by
  exact ⟨rfl, by decide⟩

/-- C1 amended: the single-flight guarantee holds for
`TokenManager.refreshToken` (src/lib/auth/token-manager.ts), not for
`AuthHandler.getValidToken`: for every `N ≥ 1`, when `N` concurrent
`refreshToken` callers all perform their synchronous entry while the
first caller's refresh is still in flight, exactly one underlying
refresh network call is issued — the first caller stores the in-flight
promise and every later caller observes and reuses it.
(`AuthHandler.getValidToken`, by contrast, performs no deduplication, as
the counterexample shows.) -/
theorem c1_amended_token_manager_single_flight (n : ℕ) (h : 1 ≤ n) :
    (tmEnters n tmInit).networkCalls = 1 ∧
    (tmEnters n tmInit).refreshInFlight = true := by
  obtain ⟨m, rfl⟩ : ∃ m, n = m + 1 := ⟨n - 1, by omega⟩
  have hfirst : tmEnter tmInit =
      { refreshInFlight := true, networkCalls := 1, sharedWaiters := 0 } := rfl
  show (tmEnters m (tmEnter tmInit)).networkCalls = 1 ∧
    (tmEnters m (tmEnter tmInit)).refreshInFlight = true
  rw [hfirst]
  exact tmEnters_inFlight m _ rfl

/-- C1 witness: three concurrent entries issue exactly one network
call. -/
theorem c1_witness :
    (1 : ℕ) ≤ 3 ∧ (tmEnters 3 tmInit).networkCalls = 1 := by
  exact ⟨by norm_num, (c1_amended_token_manager_single_flight 3 (by norm_num)).1⟩

/-- C6 counterexample: a DomainError with statusCode 400 and code
`INVALID_MARKET` thrown through the service adapter's request path is
re-raised as a `SpotifyValidationError` with code `VALIDATION_ERROR` —
the adapter *changes* the error's code, contradicting the claim that the
code is unchanged in kind. -/
theorem c6_counterexample :
    (baseServiceCatch "t0" "track"
      (.spotify { message := "bad request", statusCode := some 400, code := "INVALID_MARKET", data := some { error := some { message := "invalid market code", status := 400, code := none }, retryAfter := none, contextData := none } })).code = "VALIDATION_ERROR" ∧
    "VALIDATION_ERROR" ≠ "INVALID_MARKET" := by
  exact ⟨rfl, by decide⟩

/-- C6 amended: the service adapter never swallows an error
(`handleError` is declared `never` and always re-raises, modelled here as
a total function to the raised error), but the raised error's code is
determined by the original's `statusCode`, not preserved: 404 →
NOT_FOUND, 429 → RATE_LIMIT_ERROR, 400 → VALIDATION_ERROR, 401/403 →
AUTHENTICATION_ERROR, and only in the remaining (generic) cases are the
original code and statusCode carried through.  The service context's
`resourceType` is attached in the 404, 429 and generic branches, but
*not* in the 400/401/403 branches. -/
theorem c6_amended_code_by_status (now rt : String) (e : SpotifyHttpError) :
    ((baseServiceCatch now rt (.spotify e)).code =
      if e.statusCode = some 404 then "NOT_FOUND"
      else if e.statusCode = some 429 then "RATE_LIMIT_ERROR"
      else if e.statusCode = some 400 then "VALIDATION_ERROR"
      else if e.statusCode = some 401 ∨ e.statusCode = some 403 then
        "AUTHENTICATION_ERROR"
      else e.code) ∧
    ((baseServiceCatch now rt (.spotify e)).statusCode =
      if e.statusCode = some 404 then some 404
      else if e.statusCode = some 429 then some 429
      else if e.statusCode = some 400 then some 400
      else if e.statusCode = some 401 ∨ e.statusCode = some 403 then some 401
      else e.statusCode) ∧
    (ctxField (baseServiceCatch now rt (.spotify e)) "resourceType" =
      if e.statusCode = some 400 ∨ e.statusCode = some 401 ∨
          e.statusCode = some 403 then none
      else some rt) := by
  rcases e with ⟨msg, st, code, data⟩
  rcases st with _ | s
  · refine ⟨?_, ?_, ?_⟩ <;>
      simp [baseServiceCatch, handleError, handleGenericError, ctxField,
        jsSpread, jsGet]
  by_cases h4 : s = 404
  · subst h4
    refine ⟨?_, ?_, ?_⟩ <;>
      simp [baseServiceCatch, handleError, handleNotFoundError, ctxField,
        jsSpread, jsGet]
  by_cases h9 : s = 429
  · subst h9
    refine ⟨?_, ?_, ?_⟩ <;>
      simp [baseServiceCatch, handleError, handleRateLimitError,
        mkRateLimitError, ctxField, jsSpread, jsGet]
  by_cases h0 : s = 400
  · subst h0
    simp only [baseServiceCatch, handleError]
    norm_num
    unfold handleBadRequestError
    split_ifs <;>
      refine ⟨rfl, rfl, ?_⟩ <;> simp [mkValidationError, ctxField, jsGet]
  by_cases h1 : s = 401
  · subst h1
    refine ⟨?_, ?_, ?_⟩ <;>
      simp [baseServiceCatch, handleError, mkAuthenticationError, ctxField,
        jsGet]
  by_cases h3 : s = 403
  · subst h3
    refine ⟨?_, ?_, ?_⟩ <;>
      simp [baseServiceCatch, handleError, mkAuthenticationError, ctxField,
        jsGet]
  refine ⟨?_, ?_, ?_⟩ <;>
    simp [baseServiceCatch, handleError, handleGenericError, ctxField,
      jsSpread, jsGet, h4, h9, h0, h1, h3]

end SpotifyCore
